import Mathlib

/-!
Verification of the macOS windowing backend (windowing_macos.mm) and the
application editor draw path (application_editor.cpp) of the visage UI
framework.  Each definition is a shallow embedding of the corresponding
source function; CGFloat and float values are modelled as rationals, native
pointers as natural numbers, and the framework window object (an external
capability interface) as a record of the query results the backend reads.
-/

namespace Visage

/-! ## Window registry (`NativeWindowLookup`) -/

/-- Value stored in the native-window registry: models a `WindowMac*`.
`wid` is the object identity (the pointer value), `handle` what
`nativeHandle()` returns, `closeRequested` and `isShowing` the results of
those queries on this window. -/
structure WindowEntry where
  wid : Nat
  handle : Nat
  closeRequested : Bool
  isShowing : Bool
  deriving DecidableEq, Repr

/-- The registry map `std::map<void*, WindowMac*>` embedded as an association
list keyed by native handle.  A `std::map` holds at most one binding per key;
the operations below preserve that shape. -/
abbrev Registry := List (Nat × WindowEntry)

/-- Models the map assignment `m[k] = v`: replaces the value at an existing
key, inserts a new binding otherwise. -/
def mapAssign : Registry → Nat → WindowEntry → Registry
  | [], k, v => [(k, v)]
  | p :: rest, k, v => if p.1 = k then (k, v) :: rest else p :: mapAssign rest k v

/-- Models `m.erase(k)`: afterwards the key has no binding. -/
def mapErase (m : Registry) (k : Nat) : Registry :=
  m.filter fun p => p.1 != k

/-- Models `m.find(k)` returning the mapped window or nothing. -/
def mapFind (m : Registry) (k : Nat) : Option WindowEntry :=
  (m.find? fun p => p.1 == k).map Prod.snd

namespace NativeWindowLookup

/-- `NativeWindowLookup::addWindow`:
`native_window_lookup_[window->nativeHandle()] = window`. -/
def addWindow (r : Registry) (w : WindowEntry) : Registry :=
  mapAssign r w.handle w

/-- `NativeWindowLookup::removeWindow`: erases by the window handle when a
binding for it is present. -/
def removeWindow (r : Registry) (w : WindowEntry) : Registry :=
  if (mapFind r w.handle).isSome then mapErase r w.handle else r

/-- `NativeWindowLookup::findWindow`. -/
def findWindow (r : Registry) (h : Nat) : Option WindowEntry :=
  mapFind r h

/-- `NativeWindowLookup::anyWindowOpen`: whether some registered window is
showing. -/
def anyWindowOpen (r : Registry) : Bool :=
  r.any fun p => p.2.isShowing

/-- `NativeWindowLookup::requestAllToClose`: starts from `true` and clears the
result on every window whose `closeRequested()` is false. -/
def requestAllToClose (r : Registry) : Bool :=
  r.foldl (fun result p => if p.2.closeRequested then result else false) true

end NativeWindowLookup

/-- The `NSApplicationTerminateReply` values returned by the app delegate. -/
inductive TerminateReply where
  | terminateNow
  | terminateCancel
  deriving DecidableEq, Repr

/-- `[VisageAppDelegate applicationShouldTerminate:]`: terminate only when
every registered window agrees to close. -/
def VisageAppDelegate.applicationShouldTerminate (r : Registry) : TerminateReply :=
  if NativeWindowLookup.requestAllToClose r then .terminateNow else .terminateCancel

/-! ## Redraw path (`displayLayer` / `drawWindow`) -/

/-- The view state the redraw path reads: the `visage_window` back-reference
(null after `WindowMac::~WindowMac`) and the frame counter. -/
structure ViewRedrawState where
  visage_window : Option Nat
  draw_count : Nat
  deriving DecidableEq, Repr

/-- Outcome of one redraw request: the updated view state, whether the owning
window `drawCallback` ran, and whether an error was reported. -/
structure RedrawOutcome where
  state : ViewRedrawState
  drewCallback : Bool
  reportedError : Bool
  deriving DecidableEq, Repr

/-- `[VisageAppView drawWindow]`: invokes the owner draw callback when the
back-reference is set; when it is null the only action is a rate-limited
debug log, never an error report. -/
def VisageAppView.drawWindow (v : ViewRedrawState) : RedrawOutcome :=
  match v.visage_window with
  | some _ => ⟨v, true, false⟩
  | none => ⟨v, false, false⟩

/-- `[VisageAppView displayLayer:]`: bumps the frame counter, then draws via
`drawWindow`. -/
def VisageAppView.displayLayer (v : ViewRedrawState) : RedrawOutcome :=
  VisageAppView.drawWindow { v with draw_count := v.draw_count + 1 }

/-- The effect of `WindowMac::~WindowMac` on its view:
`view_.visage_window = nullptr`. -/
def WindowMac.detachView (v : ViewRedrawState) : ViewRedrawState :=
  { v with visage_window := none }

/-! ## Metal layer drawable size -/

/-- The `CAMetalLayer` state the drawable-size invariant concerns. -/
structure MetalLayerState where
  contentsScale : ℚ
  drawableWidth : ℚ
  drawableHeight : ℚ
  deriving DecidableEq, Repr

/-- The view geometry: bounds size, the backing Metal layer (none when the
view has no layer), and the backing scale factor of the hosting window (none
when the view is not installed in a window). -/
structure ViewGeometry where
  boundsWidth : ℚ
  boundsHeight : ℚ
  metalLayer : Option MetalLayerState
  windowBackingScale : Option ℚ
  deriving DecidableEq, Repr

/-- `[VisageAppView updateMetalLayerDrawableSize]`: picks the scale from the
hosting window, else from a positive existing contents scale, else 1; then
sets `contentsScale` and `drawableSize = bounds * scale`. -/
def VisageAppView.updateMetalLayerDrawableSize (v : ViewGeometry) : ViewGeometry :=
  match v.metalLayer with
  | none => v
  | some layer =>
    let scale : ℚ :=
      match v.windowBackingScale with
      | some s => s
      | none => if 0 < layer.contentsScale then layer.contentsScale else 1
    { v with metalLayer := some ⟨scale, v.boundsWidth * scale, v.boundsHeight * scale⟩ }

/-- `[VisageAppView setFrameSize:]`: applies the new bounds size, then
recomputes the drawable size. -/
def VisageAppView.setFrameSize (v : ViewGeometry) (w h : ℚ) : ViewGeometry :=
  VisageAppView.updateMetalLayerDrawableSize { v with boundsWidth := w, boundsHeight := h }

/-- `[VisageAppView viewDidChangeBackingProperties]` observed after the OS has
changed the hosting window backing scale factor to `s`: recomputes the
drawable size against the new scale. -/
def VisageAppView.viewDidChangeBackingProperties (v : ViewGeometry) (s : ℚ) : ViewGeometry :=
  VisageAppView.updateMetalLayerDrawableSize { v with windowBackingScale := some s }

/-- Geometry effect of `[VisageAppView initWithFrame:inWindow:]`: a fresh
Metal backing layer (`makeBackingLayer` leaves the default contents scale of
1) followed by the immediate `updateMetalLayerDrawableSize` call. -/
def VisageAppView.initGeometry (w h : ℚ) (windowScale : Option ℚ) : ViewGeometry :=
  VisageAppView.updateMetalLayerDrawableSize ⟨w, h, some ⟨1, 0, 0⟩, windowScale⟩

/-- The drawable-size invariant: whenever a Metal layer exists, its drawable
size equals the view bounds multiplied by its current contents scale. -/
def drawableSizeInvariant (v : ViewGeometry) : Prop :=
  match v.metalLayer with
  | none => True
  | some layer =>
    layer.drawableWidth = v.boundsWidth * layer.contentsScale
      ∧ layer.drawableHeight = v.boundsHeight * layer.contentsScale

/-! ## Pointer coordinate conversion -/

/-- `visage::Point` with float components modelled as rationals. -/
structure Point where
  x : ℚ
  y : ℚ
  deriving DecidableEq, Repr

/-- `visage::Point` scalar multiplication `point * scale`. -/
def Point.scale (p : Point) (s : ℚ) : Point :=
  ⟨p.x * s, p.y * s⟩

/-- `[VisageAppView eventPosition:]`: the view-local event location
`(view_x, view_y)` in a view of height `view_height`, with Y flipped to a
top-left origin, multiplied by the owning window `dpiScale()`. -/
def VisageAppView.eventPosition (view_x view_y view_height dpi_scale : ℚ) : Point :=
  Point.scale ⟨view_x, view_height - view_y⟩ dpi_scale

/-- `[VisageAppView dragPosition:]`: same conversion for drag locations. -/
def VisageAppView.dragPosition (drag_x drag_y view_height dpi_scale : ℚ) : Point :=
  Point.scale ⟨drag_x, view_height - drag_y⟩ dpi_scale

/-! ## Occlusion tracking -/

/-- The owning `WindowMac` state the occlusion path touches: whether the
window was constructed embedded (plugin mode, `parent_view_` non-null), its
current visibility flag, and the adopted host window handle. -/
structure WindowVisibility where
  isEmbedded : Bool
  visible : Bool
  window_handle : Option Nat
  deriving DecidableEq, Repr

/-- View state for occlusion tracking: the owning window back-reference and
whether this view added itself as an occlusion-notification observer. -/
structure OcclusionViewState where
  visage_window : Option WindowVisibility
  occlusionSubscribed : Bool
  deriving DecidableEq, Repr

/-- `WindowMac::setParentWindow`: a no-op for standalone windows
(`parent_view_ == nullptr`); an embedded window adopts the host window
handle. -/
def WindowMac.setParentWindow (w : WindowVisibility) (nw : Nat) : WindowVisibility :=
  if w.isEmbedded then { w with window_handle := some nw } else w

/-- `[VisageAppView viewWillMoveToWindow:]` with a non-null target window:
attaches the owning window to the host, subscribes to occlusion-state
notifications only when not embedded, and marks embedded windows visible. -/
def VisageAppView.viewWillMoveToWindow (v : OcclusionViewState) (nw : Nat) :
    OcclusionViewState :=
  let v1 : OcclusionViewState :=
    match v.visage_window with
    | some w => { v with visage_window := some (WindowMac.setParentWindow w nw) }
    | none => v
  let embedded : Bool :=
    match v1.visage_window with
    | some w => w.isEmbedded
    | none => false
  if embedded then
    match v1.visage_window with
    | some w => { v1 with visage_window := some { w with visible := true } }
    | none => v1
  else
    { v1 with occlusionSubscribed := true }

/-- `[VisageAppView windowOcclusionChanged:]`: propagates the host window
occlusion bit to the owning window visibility. -/
def VisageAppView.windowOcclusionChanged (v : OcclusionViewState) (visibleBit : Bool) :
    OcclusionViewState :=
  match v.visage_window with
  | some w => { v with visage_window := some { w with visible := visibleBit } }
  | none => v

/-- A host occlusion-state change event: the notification center delivers
`windowOcclusionChanged` only to views that subscribed as observers. -/
def hostOcclusionEvent (v : OcclusionViewState) (visibleBit : Bool) : OcclusionViewState :=
  if v.occlusionSubscribed then VisageAppView.windowOcclusionChanged v visibleBit else v

/-! ## Application editor draw path (`ApplicationEditor::drawWindow`) -/

/-- The window query `ApplicationEditor::drawWindow` consults. -/
structure EditorWindow where
  isVisible : Bool
  deriving DecidableEq, Repr

/-- A child frame as the editor draw path sees it: its identity and the
result of its `isDrawing()` query. -/
structure EditorFrame where
  fid : Nat
  isDrawing : Bool
  deriving DecidableEq, Repr

/-- `ApplicationEditor` state touched by `drawWindow`: the attached window,
the editor dimensions, the initialized flag, the stale and drawing child
lists, and the canvas effects (frames drawn to regions, submissions). -/
structure EditorState where
  window : Option EditorWindow
  width : ℚ
  height : ℚ
  initialized : Bool
  stale_children : List EditorFrame
  drawing_children : List EditorFrame
  drawn : List Nat
  submits : Nat
  deriving DecidableEq, Repr

/-- `Frame::drawToRegion` (external canvas collaborator): records that the
frame was drawn into the canvas. -/
def drawToRegion (s : EditorState) (f : EditorFrame) : EditorState :=
  { s with drawn := s.drawn ++ [f.fid] }

/-- `Frame::init` (external collaborator): marks the editor initialized. -/
def frameInit (s : EditorState) : EditorState :=
  { s with initialized := true }

/-- `Canvas::submit` (external collaborator): records one submission. -/
def canvasSubmit (s : EditorState) : EditorState :=
  { s with submits := s.submits + 1 }

/-- `ApplicationEditor::drawStaleChildren`: swaps the stale list into the
drawing list, draws every child still drawing, then draws and removes any
child that turned stale during the pass and was not just drawn. -/
def ApplicationEditor.drawStaleChildren (s : EditorState) : EditorState :=
  let drawing := s.stale_children
  let s1 := { s with drawing_children := drawing, stale_children := [] }
  let s2 := drawing.foldl (fun acc f => if f.isDrawing then drawToRegion acc f else acc) s1
  let s3 := s2.stale_children.foldl
    (fun acc f =>
      if drawing.contains f then { acc with stale_children := acc.stale_children ++ [f] }
      else drawToRegion acc f)
    { s2 with stale_children := [] }
  { s3 with drawing_children := [] }

/-- The body of `ApplicationEditor::drawWindow` after the visibility guard:
the zero-size guard, lazy `init()`, and the stale-children draw/submit. -/
def ApplicationEditor.drawWindowBody (s : EditorState) : EditorState :=
  if s.width = 0 ∨ s.height = 0 then s
  else
    let s1 := if s.initialized then s else frameInit s
    if s1.stale_children.isEmpty then s1
    else canvasSubmit (ApplicationEditor.drawStaleChildren s1)

/-- `ApplicationEditor::drawWindow`: returns immediately when an attached
window reports itself not visible, otherwise runs the body. -/
def ApplicationEditor.drawWindow (s : EditorState) : EditorState :=
  match s.window with
  | some w => if w.isVisible then ApplicationEditor.drawWindowBody s else s
  | none => ApplicationEditor.drawWindowBody s

/-! ## Standalone window construction and `show()` -/

/-- `Window::Decoration`. -/
inductive Decoration where
  | Native
  | Client
  | Popup
  deriving DecidableEq, Repr

/-- AppKit style-mask bits used by `WindowMac::createWindow`. -/
def NSWindowStyleMaskTitled : Nat := 1

def NSWindowStyleMaskClosable : Nat := 2

def NSWindowStyleMaskMiniaturizable : Nat := 4

def NSWindowStyleMaskResizable : Nat := 8

def NSWindowStyleMaskFullSizeContentView : Nat := 32768

def NSWindowStyleMaskBorderless : Nat := 0

/-- `kNativeStyle` of `WindowMac::createWindow`. -/
def kNativeStyle : Nat :=
  NSWindowStyleMaskTitled ||| NSWindowStyleMaskResizable |||
    NSWindowStyleMaskMiniaturizable ||| NSWindowStyleMaskClosable

/-- `kClientStyle` of `WindowMac::createWindow`. -/
def kClientStyle : Nat := kNativeStyle ||| NSWindowStyleMaskFullSizeContentView

/-- `kPopupStyle` of `WindowMac::createWindow`. -/
def kPopupStyle : Nat := NSWindowStyleMaskBorderless

/-- AppKit window levels used for decoration handling. -/
def NSNormalWindowLevel : Int := 0

def NSStatusWindowLevel : Int := 25

/-- A content rectangle in logical points. -/
structure RectQ where
  x : ℚ
  y : ℚ
  w : ℚ
  h : ℚ
  deriving DecidableEq, Repr

/-- The owned native `NSWindow` as `WindowMac::createWindow` configures it. -/
structure NSWindowModel where
  styleMask : Nat
  level : Int
  titlebarTransparent : Bool
  backingScaleFactor : ℚ
  isVisible : Bool
  deriving DecidableEq, Repr

/-- The `WindowMac` state the construction and show lifecycle touches.
`view_` is the backing `VisageAppView` carrying the Metal (GPU) surface;
`window_handle_` the owned native window, none when not created or after
`closeWindow` released it; `resized_events` records `handleResized` calls;
`showing` records `notifyShow`. -/
structure WindowMacModel where
  view_ : Option ViewGeometry
  window_handle_ : Option NSWindowModel
  parent_view_ : Option Nat
  decoration_ : Decoration
  last_content_rect_ : RectQ
  dpi_scale : ℚ
  resized_events : List (Int × Int)
  showing : Bool
  deriving DecidableEq, Repr

/-- `std::round`: rounds half away from zero. -/
def roundHalfAway (q : ℚ) : Int :=
  if q < 0 then -⌊-q + 1 / 2⌋ else ⌊q + 1 / 2⌋

/-- `WindowMac::createWindow`: allocates the native `NSWindow` with the style
mask and level of the decoration kind, adopts the window backing scale as
the DPI scale, and reports the rounded client size through `handleResized`.
`os_backing_scale` is the backing scale factor the OS gives the new
window. -/
def WindowMac.createWindow (w : WindowMacModel) (os_backing_scale : ℚ) : WindowMacModel :=
  let style_mask : Nat :=
    if w.decoration_ = Decoration.Popup then kPopupStyle
    else if w.decoration_ = Decoration.Client then kClientStyle
    else kNativeStyle
  let win : NSWindowModel :=
    { styleMask := style_mask
      level := if w.decoration_ = Decoration.Popup then NSStatusWindowLevel
               else NSNormalWindowLevel
      titlebarTransparent := w.decoration_ == Decoration.Client
      backingScaleFactor := os_backing_scale
      isVisible := false }
  let w1 := { w with window_handle_ := some win, dpi_scale := os_backing_scale }
  let client_width := roundHalfAway (w1.last_content_rect_.w * w1.dpi_scale)
  let client_height := roundHalfAway (w1.last_content_rect_.h * w1.dpi_scale)
  { w1 with resized_events := w1.resized_events ++ [(client_width, client_height)] }

/-- The standalone constructor
`WindowMac::WindowMac(x, y, width, height, scale, decoration)`: records the
content rect in points, creates the backing view (and its GPU surface) at
once, then calls `createWindow()` before registering in the lookup. -/
def WindowMac.construct (x y width height scale : ℚ) (decoration : Decoration)
    (os_backing_scale : ℚ) : WindowMacModel :=
  let base : WindowMacModel :=
    { view_ := some (VisageAppView.initGeometry (width / scale) (height / scale) none)
      window_handle_ := none
      parent_view_ := none
      decoration_ := decoration
      last_content_rect_ := ⟨x / scale, y / scale, width / scale, height / scale⟩
      dpi_scale := scale
      resized_events := []
      showing := false }
  WindowMac.createWindow base os_backing_scale

/-- `WindowMac::show()`: for standalone windows creates the native window only
when the handle is null, orders it front (key for non-popups), and finally
`notifyShow`. -/
def WindowMac.show (w : WindowMacModel) (os_backing_scale : ℚ) : WindowMacModel :=
  if w.parent_view_ = none then
    let w1 := if w.window_handle_ = none then WindowMac.createWindow w os_backing_scale else w
    let w2 := { w1 with
      window_handle_ := w1.window_handle_.map fun (win : NSWindowModel) =>
        { win with isVisible := true } }
    { w2 with showing := true }
  else
    { w with showing := true }

/-! ## Helper lemmas about the registry map -/

/-- The fold of `requestAllToClose` is the conjunction of all `closeRequested`
bits with the accumulator. -/
theorem foldl_closeRequested (r : Registry) (acc : Bool) :
    r.foldl (fun result p => if p.2.closeRequested then result else false) acc
      = (acc && r.all fun p => p.2.closeRequested) := by
  induction r generalizing acc with
  | nil => simp
  | cons p rest ih =>
    rw [List.foldl_cons, List.all_cons, ih]
    cases h : p.2.closeRequested <;> simp [h]

/-- `requestAllToClose` is the `all` of the `closeRequested` bits. -/
theorem requestAllToClose_eq_all (r : Registry) :
    NativeWindowLookup.requestAllToClose r = r.all fun p => p.2.closeRequested := by
  rw [NativeWindowLookup.requestAllToClose, foldl_closeRequested, Bool.true_and]

/-- Assigning a key makes its lookup return the assigned value. -/
theorem mapFind_mapAssign_self (r : Registry) (k : Nat) (v : WindowEntry) :
    mapFind (mapAssign r k v) k = some v := by
  induction r with
  | nil => simp [mapAssign, mapFind, List.find?]
  | cons p rest ih =>
    by_cases h : p.1 = k
    · simp [mapAssign, h, mapFind, List.find?]
    · simpa [mapAssign, h, mapFind, List.find?] using ih

/-- After erasing a key, its lookup returns nothing. -/
theorem mapFind_mapErase_self (r : Registry) (k : Nat) :
    mapFind (mapErase r k) k = none := by
  have hfind : (mapErase r k).find? (fun p => p.1 == k) = none := by
    rw [List.find?_eq_none]
    intro p hp
    have h2 := List.of_mem_filter hp
    simpa using h2
  rw [mapFind, hfind]
  rfl

/-- Assigning one key leaves the lookup of a different key unchanged. -/
theorem mapFind_mapAssign_ne (r : Registry) (k k2 : Nat) (v : WindowEntry)
    (h : k2 ≠ k) : mapFind (mapAssign r k2 v) k = mapFind r k := by
  induction r with
  | nil => simp [mapAssign, mapFind, List.find?, beq_eq_false_iff_ne.mpr h]
  | cons p rest ih =>
    by_cases hp : p.1 = k2
    · simp [mapAssign, hp, mapFind, List.find?, beq_eq_false_iff_ne.mpr h]
    · by_cases hk : p.1 = k
      · simp only [mapAssign, if_neg hp]
        simp [mapFind, List.find?, hk]
      · simp only [mapAssign, if_neg hp]
        simp only [mapFind, List.find?, beq_eq_false_iff_ne.mpr hk] at ih ⊢
        exact ih

/-- Reassigning the same binding twice equals assigning it once. -/
theorem mapAssign_mapAssign_self (r : Registry) (k : Nat) (v : WindowEntry) :
    mapAssign (mapAssign r k v) k v = mapAssign r k v := by
  induction r with
  | nil => simp [mapAssign]
  | cons p rest ih =>
    by_cases h : p.1 = k
    · simp [mapAssign, h]
    · simp [mapAssign, h, ih]

/-- The assigned binding is a member of the map after assignment. -/
theorem mem_mapAssign_self (r : Registry) (k : Nat) (v : WindowEntry) :
    (k, v) ∈ mapAssign r k v := by
  induction r with
  | nil => simp [mapAssign]
  | cons p rest ih =>
    by_cases h : p.1 = k
    · simp [mapAssign, h]
    · simp only [mapAssign, h, if_false]
      exact List.mem_cons_of_mem p ih

/-- A host occlusion event is the identity on an unsubscribed view. -/
theorem hostOcclusionEvent_unsubscribed (v : OcclusionViewState) (b : Bool)
    (h : v.occlusionSubscribed = false) : hostOcclusionEvent v b = v := by
  simp [hostOcclusionEvent, h]

/-- A whole stream of host occlusion events is the identity on an
unsubscribed view. -/
theorem foldl_hostOcclusionEvent_unsubscribed (events : List Bool)
    (v : OcclusionViewState) (h : v.occlusionSubscribed = false) :
    events.foldl hostOcclusionEvent v = v := by
  induction events with
  | nil => rfl
  | cons b rest ih =>
    rw [List.foldl_cons, hostOcclusionEvent_unsubscribed v b h]
    exact ih

/-- Every entry point establishes the drawable-size invariant, because each
ends in `updateMetalLayerDrawableSize`. -/
theorem updateMetalLayerDrawableSize_establishes (v : ViewGeometry) :
    drawableSizeInvariant (VisageAppView.updateMetalLayerDrawableSize v) := by
  cases h : v.metalLayer with
  | none => simp [VisageAppView.updateMetalLayerDrawableSize, drawableSizeInvariant, h]
  | some layer => simp [VisageAppView.updateMetalLayerDrawableSize, drawableSizeInvariant, h]

/-! ## Claim theorems -/

/-- Claim C2: `requestAllToClose` returns true iff every registered window
close predicate is true; adding one window whose predicate is false makes the
result false regardless of the other windows; the result gates application
termination (false cancels it). -/
theorem C2_requestAllToClose_gates_termination (r : Registry) (i h : Nat) (sh : Bool) :
    (NativeWindowLookup.requestAllToClose r = true ↔
        ∀ p ∈ r, p.2.closeRequested = true)
      ∧ NativeWindowLookup.requestAllToClose
          (NativeWindowLookup.addWindow r ⟨i, h, false, sh⟩) = false
      ∧ (VisageAppDelegate.applicationShouldTerminate r = TerminateReply.terminateCancel ↔
          NativeWindowLookup.requestAllToClose r = false) := by
  refine ⟨?_, ?_, ?_⟩
  · rw [requestAllToClose_eq_all]
    exact List.all_eq_true
  · rw [requestAllToClose_eq_all]
    have hmem : ((h, (⟨i, h, false, sh⟩ : WindowEntry)) : Nat × WindowEntry)
        ∈ NativeWindowLookup.addWindow r ⟨i, h, false, sh⟩ :=
      mem_mapAssign_self r h ⟨i, h, false, sh⟩
    rw [Bool.eq_false_iff]
    intro hall
    have := List.all_eq_true.mp hall _ hmem
    simp at this
  · rw [VisageAppDelegate.applicationShouldTerminate]
    cases hreq : NativeWindowLookup.requestAllToClose r <;> simp [hreq]

/-- Claim C9: with no windows registered, `requestAllToClose` is true and the
application-level termination query succeeds. -/
theorem C9_empty_registry_terminates :
    NativeWindowLookup.requestAllToClose ([] : Registry) = true
      ∧ VisageAppDelegate.applicationShouldTerminate ([] : Registry)
          = TerminateReply.terminateNow := by
  decide

/-- Claim C5: `findWindow` on a window handle returns that window right after
`addWindow`, and returns null right after `removeWindow`; additions of other
windows with different handles do not disturb the mapping. -/
theorem C5_findWindow_lifecycle (r : Registry) (w v : WindowEntry) :
    NativeWindowLookup.findWindow (NativeWindowLookup.addWindow r w) w.handle = some w
      ∧ NativeWindowLookup.findWindow (NativeWindowLookup.removeWindow r w) w.handle = none
      ∧ (v.handle ≠ w.handle →
          NativeWindowLookup.findWindow
              (NativeWindowLookup.addWindow (NativeWindowLookup.addWindow r w) v) w.handle
            = some w) := by
  refine ⟨mapFind_mapAssign_self r w.handle w, ?_, ?_⟩
  · rw [NativeWindowLookup.removeWindow, NativeWindowLookup.findWindow]
    cases hs : (mapFind r w.handle).isSome
    · rw [if_neg (by simp)]
      exact Option.not_isSome_iff_eq_none.mp (by simp [hs])
    · rw [if_pos rfl]
      exact mapFind_mapErase_self r w.handle
  · intro hne
    rw [NativeWindowLookup.findWindow, NativeWindowLookup.addWindow,
      mapFind_mapAssign_ne _ _ _ _ hne]
    exact mapFind_mapAssign_self r w.handle w

/-- Claim C8 counterexample: when a second, distinct window carrying the same
native handle is added, the existing mapping for that handle is replaced, not
left unchanged. -/
theorem C8_counterexample :
    NativeWindowLookup.findWindow
        (NativeWindowLookup.addWindow
          (NativeWindowLookup.addWindow [] ⟨1, 7, true, true⟩) ⟨2, 7, true, true⟩) 7
      ≠ some ⟨1, 7, true, true⟩ := by
  decide

/-- Claim C8 (amended): `addWindow` inserts keyed by the native handle with
assignment semantics: afterwards the handle maps to the newly added window,
overwriting any existing mapping for that handle, and re-adding the identical
window leaves the registry unchanged. -/
theorem C8_addWindow_assignment_semantics (r : Registry) (w : WindowEntry) :
    NativeWindowLookup.findWindow (NativeWindowLookup.addWindow r w) w.handle = some w
      ∧ NativeWindowLookup.addWindow (NativeWindowLookup.addWindow r w) w
          = NativeWindowLookup.addWindow r w := by
  exact ⟨mapFind_mapAssign_self r w.handle w, mapAssign_mapAssign_self r w.handle w⟩

/-- Claim C3: once the owning-window back-reference is nulled (as the
`WindowMac` destructor does), a redraw arriving through `displayLayer` or
`drawWindow` never invokes the owner draw callback and reports no error. -/
theorem C3_detached_redraw_skipped_silently (v : ViewRedrawState) :
    (WindowMac.detachView v).visage_window = none
      ∧ (VisageAppView.displayLayer (WindowMac.detachView v)).drewCallback = false
      ∧ (VisageAppView.displayLayer (WindowMac.detachView v)).reportedError = false
      ∧ (VisageAppView.drawWindow (WindowMac.detachView v)).drewCallback = false
      ∧ (VisageAppView.drawWindow (WindowMac.detachView v)).reportedError = false := by
  refine ⟨rfl, ?_, ?_, ?_, ?_⟩ <;>
    simp [VisageAppView.displayLayer, VisageAppView.drawWindow, WindowMac.detachView]

/-- Claim C4: after initial view creation, a `setFrameSize` call, or a
backing-scale-change notification, the Metal layer drawable size equals the
view bounds multiplied by the current contents scale, for every bounds size
and scale. -/
theorem C4_drawable_size_invariant (v : ViewGeometry) (w h s fw fh : ℚ)
    (ws : Option ℚ) :
    drawableSizeInvariant (VisageAppView.initGeometry fw fh ws)
      ∧ drawableSizeInvariant (VisageAppView.setFrameSize v w h)
      ∧ drawableSizeInvariant (VisageAppView.viewDidChangeBackingProperties v s) :=
  ⟨updateMetalLayerDrawableSize_establishes _,
    updateMetalLayerDrawableSize_establishes _,
    updateMetalLayerDrawableSize_establishes _⟩

/-- Claim C6: a native pointer event at view-local `(x, y)` in a view of
height `H` with DPI scale `s` is delivered at framework-space
`(x * s, (H - y) * s)`, and a native point at `y = 0` maps to framework
`y = H * s`; drag locations convert the same way. -/
theorem C6_event_coordinate_conversion (x y H s : ℚ) :
    VisageAppView.eventPosition x y H s = ⟨x * s, (H - y) * s⟩
      ∧ VisageAppView.dragPosition x y H s = ⟨x * s, (H - y) * s⟩
      ∧ (VisageAppView.eventPosition x 0 H s).y = H * s := by
  refine ⟨rfl, rfl, ?_⟩
  simp [VisageAppView.eventPosition, Point.scale]

/-- Claim C7: attaching an embedded (plugin) window to a host window never
subscribes occlusion notifications, sets its visibility to true, and no
stream of host occlusion-change events ever changes that state (visibility
never becomes false through occlusion tracking). -/
theorem C7_embedded_ignores_occlusion (vis0 : Bool) (wh : Option Nat) (nw : Nat)
    (events : List Bool) :
    VisageAppView.viewWillMoveToWindow ⟨some ⟨true, vis0, wh⟩, false⟩ nw
        = ⟨some ⟨true, true, some nw⟩, false⟩
      ∧ events.foldl hostOcclusionEvent
          (VisageAppView.viewWillMoveToWindow ⟨some ⟨true, vis0, wh⟩, false⟩ nw)
        = ⟨some ⟨true, true, some nw⟩, false⟩ := by
  have h1 : VisageAppView.viewWillMoveToWindow ⟨some ⟨true, vis0, wh⟩, false⟩ nw
      = ⟨some ⟨true, true, some nw⟩, false⟩ := by
    simp [VisageAppView.viewWillMoveToWindow, WindowMac.setParentWindow]
  refine ⟨h1, ?_⟩
  rw [h1]
  exact foldl_hostOcclusionEvent_unsubscribed events _ rfl

/-- Claim C10: when the attached window reports itself not visible, or the
editor width or height is zero, `ApplicationEditor::drawWindow` changes
nothing: no child is drawn, nothing is submitted to the canvas, and the
stale-children list is untouched. -/
theorem C10_drawWindow_skips_unchanged (s : EditorState)
    (h : (∃ w, s.window = some w ∧ w.isVisible = false)
      ∨ s.width = 0 ∨ s.height = 0) :
    ApplicationEditor.drawWindow s = s
      ∧ (ApplicationEditor.drawWindow s).drawn = s.drawn
      ∧ (ApplicationEditor.drawWindow s).submits = s.submits
      ∧ (ApplicationEditor.drawWindow s).stale_children = s.stale_children := by
  have heq : ApplicationEditor.drawWindow s = s := by
    have hbody : (s.width = 0 ∨ s.height = 0) → ApplicationEditor.drawWindowBody s = s := by
      intro hz
      rw [ApplicationEditor.drawWindowBody, if_pos hz]
    rcases h with ⟨w, hw, hvis⟩ | hz
    · rw [ApplicationEditor.drawWindow]
      rw [hw]
      simp [hvis]
    · rw [ApplicationEditor.drawWindow]
      cases hs : s.window with
      | some w => cases hv : w.isVisible <;> simp [hv, hbody hz]
      | none => exact hbody hz
  exact ⟨heq, by rw [heq], by rw [heq], by rw [heq]⟩

/-- Claim C10 witness: a concrete hidden-window state is left unchanged by
`drawWindow`. -/
theorem C10_drawWindow_skips_unchanged_witness :
    ApplicationEditor.drawWindow ⟨some ⟨false⟩, 5, 5, true, [⟨1, true⟩], [], [], 0⟩
        = ⟨some ⟨false⟩, 5, 5, true, [⟨1, true⟩], [], [], 0⟩
      ∧ (ApplicationEditor.drawWindow ⟨some ⟨false⟩, 5, 5, true, [⟨1, true⟩], [], [], 0⟩).drawn
        = [] :=
  ⟨(C10_drawWindow_skips_unchanged _ (Or.inl ⟨⟨false⟩, rfl, rfl⟩)).1,
    (C10_drawWindow_skips_unchanged _ (Or.inl ⟨⟨false⟩, rfl, rfl⟩)).2.1⟩

/-- Claim C1 counterexample: at a concrete standalone construction
(`x = 0, y = 0, 800 x 600, scale 1, Native decoration`), the native top-level
window handle is already non-null before any `show()` call, so the native
window is not created lazily on first `show()`. -/
theorem C1_counterexample :
    (WindowMac.construct 0 0 800 600 1 Decoration.Native 1).window_handle_ ≠ none := by
  decide

/-- Claim C1 (amended): standalone construction creates the backing view (and
its GPU surface) eagerly and also creates the native top-level window eagerly
via `createWindow()`; `show()` creates the native window only when the handle
is null (as after `closeWindow` released it). -/
theorem C1_construction_eager_window (x y width height scale os : ℚ)
    (d : Decoration) (w : WindowMacModel) :
    (WindowMac.construct x y width height scale d os).view_ ≠ none
      ∧ (WindowMac.construct x y width height scale d os).window_handle_ ≠ none
      ∧ (WindowMac.show { w with parent_view_ := none, window_handle_ := none } os).window_handle_
          ≠ none := by
  refine ⟨?_, ?_, ?_⟩
  · simp [WindowMac.construct, WindowMac.createWindow]
  · simp [WindowMac.construct, WindowMac.createWindow]
  · simp [WindowMac.show, WindowMac.createWindow]

end Visage
